import Mathlib

/-!
Shallow embedding of `app/report.py` (the snapshot comparison engine of
brianaydemir/k8s-tools) and proofs about it.

Modelling conventions:
* Timestamps are integers (seconds since some epoch); durations are integer
  numbers of seconds, so `datetime.timedelta(days=7)` is `7 * 86400`.
* The external libraries consulted by the code (`dateutil.parser.isoparse`,
  `datetime.datetime.fromisoformat`, `croniter`, `humanize.naturaldelta`) and
  the wall clock `get_current_datetime` are modelled as fields of an
  environment record `Env`; a parser returning `none` models the library
  raising an exception on that input.
* Python exceptions are modelled with `Except PyError`: a raised exception
  propagates out of the classifier, out of the comparison loop and out of
  `compare_snapshots`, exactly as an uncaught Python exception would.
* Python dicts keyed by object name are association lists
  `List (String × α)`; `dictGet` is dict lookup (first binding wins).
  Iteration over `set(current) | set(previous)` is modelled by iterating the
  deduplicated list of keys; the order of iteration does not affect which
  names appear in the result.
* Python truthiness of an optional string (`if not raw_schedule`) is
  `strFalsy`: true for `None` and for the empty string.
-/

set_option autoImplicit false

namespace KTools

/-- Python exceptions that the embedded code can raise: `ValueError` from a
failed parse (`dateutil.parser.isoparse`, `datetime.datetime.fromisoformat`,
`croniter.croniter`) and `KeyError` from a missing dict key. -/
inductive PyError where
  | parseError (input : String)
  | keyError (key : String)
deriving Repr, DecidableEq

instance {ε α : Type} [DecidableEq ε] [DecidableEq α] : DecidableEq (Except ε α)
  | .error a, .error b => decidable_of_iff (a = b) (by simp)
  | .error _, .ok _ => isFalse fun h => Except.noConfusion h
  | .ok _, .error _ => isFalse fun h => Except.noConfusion h
  | .ok a, .ok b => decidable_of_iff (a = b) (by simp)

/-- The external world as seen by `report.py`: the wall clock and the
third-party parsing / formatting libraries. -/
structure Env where
  /-- `get_current_datetime()`: the current UTC time. -/
  now : Int
  /-- `dateutil.parser.isoparse`; `none` models a raised `ValueError`. -/
  isoparse : String → Option Int
  /-- `datetime.datetime.fromisoformat`; `none` models a raised `ValueError`. -/
  fromisoformat : String → Option Int
  /-- `croniter.croniter(expr, t).get_prev(datetime.datetime)`: the most
  recent fire time of `expr` strictly before `t`; `none` models the
  `croniter` constructor raising on an unparsable expression. -/
  cronPrev : String → Int → Option Int
  /-- `humanize.naturaldelta` applied to a duration in seconds. -/
  naturaldelta : Int → String

/-- Python truthiness test `not x` for an optional string: `None` and the
empty string are falsy. -/
def strFalsy : Option String → Bool
  | none => true
  | some s => s.isEmpty

/-- Dict lookup on an association list (`d.get(name)` / `name in d`). -/
def dictGet {α : Type} (name : String) : List (String × α) → Option α
  | [] => none
  | (k, v) :: rest => if k = name then some v else dictGet name rest

/-- Turn an optional parse result into the raised-or-returned value of calling
the parser in Python. -/
def parseOrRaise (p : String → Option Int) : Option String → Except PyError Int
  | none => .error (.parseError "None")
  | some s =>
    match p s with
    | some t => .ok t
    | none => .error (.parseError s)

/-- A CronJob record as stored in a snapshot by `app/snapshot.py`:
`spec.suspend`, `spec.schedule`, `status.lastScheduleTime`,
`status.lastSuccessfulTime` (the status fields may be absent or null). -/
structure CronJobRecord where
  suspend : Bool
  schedule : String
  lastScheduleTime : Option String
  lastSuccessfulTime : Option String
deriving Repr, DecidableEq

/-- `is_failed_cronjob` from `report.py`.  Returns the failure-description
string, or raises (models the uncaught `ValueError` of a failed
`isoparse` / `croniter` call). -/
def is_failed_cronjob (env : Env) (data : CronJobRecord) : Except PyError String :=
  let raw_schedule := data.lastScheduleTime
  let raw_successful := data.lastSuccessfulTime
  if data.suspend then .ok ""
  else if strFalsy raw_schedule then
    if !strFalsy raw_successful then .ok "Never scheduled (but has run successfully)"
    else .ok "Never scheduled"
  else if strFalsy raw_successful then .ok "Never successfully ran"
  else
    match parseOrRaise env.isoparse raw_schedule with
    | .error e => .error e
    | .ok schedule =>
      match parseOrRaise env.isoparse raw_successful with
      | .error e => .error e
      | .ok successful =>
        let now := env.now
        -- grace_period = datetime.timedelta(days=7)
        if now - schedule > 7 * 86400 then
          let delta := env.naturaldelta (now - schedule)
          match env.cronPrev data.schedule now with
          | none => .error (.parseError data.schedule)
          | some expected =>
            if expected ≤ schedule then
              .ok ("Has not been scheduled in " ++ delta ++ " (but this might be expected)")
            else
              .ok ("Has not been scheduled in " ++ delta)
        else
          -- grace_period = datetime.timedelta(days=1)
          if schedule - successful > 86400 then
            .ok ("Has not run successfully in " ++ env.naturaldelta (now - successful))
          else
            .ok ""

/-- The `status` fields read by the Deployment / StatefulSet classifiers;
either count may be absent from the snapshot record. -/
structure ReplicaStatus where
  replicas : Option Int
  readyReplicas : Option Int
deriving Repr, DecidableEq

/-- `is_failed_deployment` from `report.py`: missing counts default to `0`
(`data["status"].get("replicas", 0)`), and the reason is the f-string
`f"{ready}/{desired} Ready"`. -/
def is_failed_deployment (data : ReplicaStatus) : String :=
  let desired := data.replicas.getD 0
  let ready := data.readyReplicas.getD 0
  if ready = desired then "" else toString ready ++ "/" ++ toString desired ++ " Ready"

/-- `is_failed_statefulset` from `report.py` (textually identical to the
Deployment classifier). -/
def is_failed_statefulset (data : ReplicaStatus) : String :=
  let desired := data.replicas.getD 0
  let ready := data.readyReplicas.getD 0
  if ready = desired then "" else toString ready ++ "/" ++ toString desired ++ " Ready"

/-- One entry of `metadata.ownerReferences`; only its `kind` field is read,
and the field may be absent. -/
structure OwnerRef where
  kind : Option String
deriving Repr, DecidableEq

/-- A Pod record as stored in a snapshot: `metadata.ownerReferences` and
`status.phase` (`none` models the `phase` key missing from `status`). -/
structure PodRecord where
  ownerReferences : List OwnerRef
  phase : Option String
deriving Repr, DecidableEq

/-- `get_owner_kinds` from `report.py`: the truthy `kind` fields of the
record's owner references (`if kind := owner.get("kind")` skips both a
missing and an empty kind). -/
def get_owner_kinds (refs : List OwnerRef) : List String :=
  refs.filterMap fun owner =>
    match owner.kind with
    | some k => if k.isEmpty then none else some k
    | none => none

/-- `is_failed_pod` from `report.py`: `data["status"]["phase"]` raises
`KeyError` when the key is absent; `Pending` and `Unknown` are the flagged
phases. -/
def is_failed_pod (data : PodRecord) : Except PyError String :=
  match data.phase with
  | none => .error (.keyError "phase")
  | some phase => .ok (if phase = "Pending" ∨ phase = "Unknown" then phase else "")

/-- A snapshot as produced by `app/snapshot.py`: per-kind maps of object
records, plus `metadata.start` (`none` models the `"start"` key missing,
which makes `current["metadata"]["start"]` raise `KeyError`).  The values of
the `jobs` map are never inspected by `report.py`. -/
structure Snapshot where
  metadataStart : Option String
  cronjobs : List (String × CronJobRecord)
  deployments : List (String × ReplicaStatus)
  statefulsets : List (String × ReplicaStatus)
  jobs : List (String × Unit)
  pods : List (String × PodRecord)
deriving Repr, DecidableEq

/-- The comparison result built by `compare_snapshots`: per-kind maps from
object name to the descriptor list accumulated for it (the Python code joins
the list with `", "` just before storing; we keep the list and render it
separately with `renderFinding`). -/
structure ComparisonResult where
  cronjobs : List (String × List String)
  deployments : List (String × List String)
  statefulsets : List (String × List String)
  jobs : List (String × List String)
  pods : List (String × List String)
  metadataNow : String
  metadataDelta : Int
deriving Repr, DecidableEq

/-- `", ".join(descriptors)`, the string actually stored in the result dict. -/
def renderFinding (descriptors : List String) : String :=
  String.intercalate ", " descriptors

/-- The intersection test `set(ignore_owned_by) & set(get_owner_kinds(item))`
used by the ownership filter (truthiness of the intersection = nonemptiness). -/
def intersects (xs ys : List String) : Bool :=
  xs.any fun k => decide (k ∈ ys)

/-- The suppression step at the top of `compare_resource`'s loop body: when
`ignore_owned_by` is set, look the name up in `current`, falling back to
`previous`, and test whether the record's owner kinds intersect
`ignore_owned_by`.  `.ok true` means the loop `continue`s (the name is
omitted from the result). -/
def suppression_check {α : Type} (current previous : List (String × α))
    (ignore_owned_by : Option (List String)) (ownerKinds : α → List String)
    (name : String) : Except PyError Bool :=
  match ignore_owned_by with
  | none => .ok false
  | some ig =>
    match dictGet name current with
    | some item => .ok (intersects ig (ownerKinds item))
    | none =>
      match dictGet name previous with
      | some item => .ok (intersects ig (ownerKinds item))
      | none => .error (.keyError name)

/-- The body of `compare_resource`'s loop for one `name`: `.ok none` means no
entry is stored for the name (suppressed, or empty descriptor list);
`.ok (some tags)` means `data[api_resource][name]` is set to the joined
`tags`; `.error` models an exception raised by the classifier escaping the
loop. -/
def compare_resource_step {α : Type} (current previous : List (String × α))
    (is_failed : α → Except PyError String)
    (ignore_owned_by : Option (List String)) (ownerKinds : α → List String)
    (name : String) : Except PyError (Option (List String)) :=
  match suppression_check current previous ignore_owned_by ownerKinds name with
  | .error e => .error e
  | .ok true => .ok none
  | .ok false =>
    match dictGet name current with
    | none => .ok (some ["Deleted"])
    | some item =>
      match is_failed item with
      | .error e => .error e
      | .ok reason =>
        let descriptors :=
          (if (dictGet name previous).isNone then ["New"] else [])
            ++ (if reason.isEmpty then [] else [reason])
        if descriptors.isEmpty then .ok none else .ok (some descriptors)

/-- The loop of `compare_resource` over the given list of names, accumulating
the per-name entries; an exception raised for any name aborts the loop. -/
def compare_resource_loop {α : Type} (current previous : List (String × α))
    (is_failed : α → Except PyError String)
    (ignore_owned_by : Option (List String)) (ownerKinds : α → List String) :
    List String → Except PyError (List (String × List String))
  | [] => .ok []
  | name :: rest =>
    match compare_resource_step current previous is_failed ignore_owned_by ownerKinds name with
    | .error e => .error e
    | .ok entry =>
      match compare_resource_loop current previous is_failed ignore_owned_by ownerKinds rest with
      | .error e => .error e
      | .ok tail =>
        match entry with
        | some tags => .ok ((name, tags) :: tail)
        | none => .ok tail

/-- The names iterated by `compare_resource`:
`set(current[api_resource]) | set(previous.get(api_resource, {}))`. -/
def resource_names {α : Type} (current previous : List (String × α)) : List String :=
  (current.map Prod.fst ++ previous.map Prod.fst).dedup

/-- `compare_resource` from `report.py` for one resource kind. -/
def compare_resource {α : Type} (current previous : List (String × α))
    (is_failed : α → Except PyError String)
    (ignore_owned_by : Option (List String)) (ownerKinds : α → List String) :
    Except PyError (List (String × List String)) :=
  compare_resource_loop current previous is_failed ignore_owned_by ownerKinds
    (resource_names current previous)

/-- Owner kinds of a pod record, as `get_owner_kinds` extracts them. -/
def podOwnerKinds (p : PodRecord) : List String :=
  get_owner_kinds p.ownerReferences

/-- Dummy owner-kind extractor for the kinds compared without
`ignore_owned_by`; never consulted because the suppression step is skipped. -/
def noOwnerKinds {α : Type} (_ : α) : List String := []

/-- `compare_snapshots` from `report.py`.  Reads `current["metadata"]["start"]`
(raising `KeyError` when absent), parses the two `start` timestamps with
`datetime.datetime.fromisoformat` (raising `ValueError` when unparsable),
then compares cronjobs, deployments, statefulsets and pods in that order;
`jobs` is initialised to the empty dict and never filled.  Any exception
raised along the way aborts the whole comparison. -/
def compare_snapshots (env : Env) (current previous : Snapshot) :
    Except PyError ComparisonResult :=
  match current.metadataStart with
  | none => .error (.keyError "start")
  | some nowStr =>
    -- earlier = previous.get("metadata", {}).get("start", now)
    match env.fromisoformat nowStr with
    | none => .error (.parseError nowStr)
    | some dtNow =>
      match env.fromisoformat (previous.metadataStart.getD nowStr) with
      | none => .error (.parseError (previous.metadataStart.getD nowStr))
      | some dtEarlier =>
        match compare_resource current.cronjobs previous.cronjobs
            (is_failed_cronjob env) none noOwnerKinds with
        | .error e => .error e
        | .ok cronjobs =>
          match compare_resource current.deployments previous.deployments
              (fun d => .ok (is_failed_deployment d)) none noOwnerKinds with
          | .error e => .error e
          | .ok deployments =>
            match compare_resource current.statefulsets previous.statefulsets
                (fun d => .ok (is_failed_statefulset d)) none noOwnerKinds with
            | .error e => .error e
            | .ok statefulsets =>
              -- Assume that CronJobs and Jobs report on their own "failed" Pods.
              match compare_resource current.pods previous.pods
                  is_failed_pod (some ["Job"]) podOwnerKinds with
              | .error e => .error e
              | .ok pods =>
                .ok { cronjobs := cronjobs
                      deployments := deployments
                      statefulsets := statefulsets
                      jobs := []
                      pods := pods
                      metadataNow := nowStr
                      metadataDelta := dtNow - dtEarlier }



/-- Decimal digit value of a character, if it is a digit. -/
def digitVal (c : Char) : Option Nat :=
  if '0' ≤ c ∧ c ≤ '9' then some (c.toNat - '0'.toNat) else none

/-- Accumulating decimal parser over a character list. -/
def parseNatAux : List Char → Nat → Option Nat
  | [], acc => some acc
  | c :: cs, acc =>
    match digitVal c with
    | some d => parseNatAux cs (acc * 10 + d)
    | none => none

/-- Concrete parsing oracle for witnesses and counterexamples: accepts
non-empty strings of decimal digits. -/
def parseTs (s : String) : Option Int :=
  match s.data with
  | [] => none
  | cs => (parseNatAux cs 0).map Int.ofNat

/-- Concrete environment for witnesses and counterexamples: timestamps parse
as decimal integers, the cron oracle predicts a fire one second before the
query time, and every elapsed duration renders as `"D"`. -/
def envA : Env :=
  { now := 2000000
    isoparse := parseTs
    fromisoformat := parseTs
    cronPrev := fun _ t => some (t - 1)
    naturaldelta := fun _ => "D" }

/-- Clock placed so that a job last scheduled at time 1000000 is exactly one
second past the 7-day grace period. -/
def envHard : Env := { envA with now := 1604801 }

/-- Like `envHard`, but the cron oracle predicts the prior fire at time
500000, strictly before both `now` and the last schedule time. -/
def envSoftPrior : Env := { envHard with cronPrev := fun _ _ => some 500000 }

/-- Clock placed so that a job last scheduled at time 1000000 is one second
inside the 7-day grace period. -/
def envJustInside : Env := { envA with now := 1604799 }

/-- Clock well inside the 7-day scheduling grace period of a job last
scheduled at time 1000000, so only the run-success check can fire. -/
def envRun : Env := { envA with now := 1200000 }

/-- A job whose last schedule and last success are both long past. -/
def cronBothLate : CronJobRecord :=
  { suspend := false
    schedule := "0 0 * * *"
    lastScheduleTime := some "1000000"
    lastSuccessfulTime := some "0" }

/-- A job scheduled at time 1000000 whose last success closely followed. -/
def cronBoundary : CronJobRecord :=
  { suspend := false
    schedule := "0 0 * * *"
    lastScheduleTime := some "1000000"
    lastSuccessfulTime := some "999999" }

/-- A job whose `lastScheduleTime` does not parse as a timestamp. -/
def cronBadTs : CronJobRecord :=
  { suspend := false
    schedule := "0 0 * * *"
    lastScheduleTime := some "not-a-time"
    lastSuccessfulTime := some "5" }

/-- Like `envA`, but the cron oracle raises on every expression (models an
unparsable cron expression). -/
def envBadCron : Env := { envA with cronPrev := fun _ _ => none }

/-- Like `envBadCron`, but with the clock inside the 7-day grace period of a
job last scheduled at time 1000000, so the cron oracle is never consulted. -/
def envBadCronGrace : Env := { envRun with cronPrev := fun _ _ => none }

/-- A job whose `lastScheduleTime` parses but whose `lastSuccessfulTime`
does not. -/
def cronBadSuccTs : CronJobRecord :=
  { suspend := false
    schedule := "0 0 * * *"
    lastScheduleTime := some "1000000"
    lastSuccessfulTime := some "also-bad" }

/-- A suspended job. -/
def cronSuspended : CronJobRecord :=
  { suspend := true
    schedule := "0 0 * * *"
    lastScheduleTime := none
    lastSuccessfulTime := none }

/-- A job with a recorded success but no recorded schedule time. -/
def cronNeverScheduled : CronJobRecord :=
  { suspend := false
    schedule := "0 0 * * *"
    lastScheduleTime := none
    lastSuccessfulTime := some "1" }

/-- A job with a recorded schedule time but no recorded success. -/
def cronNeverRan : CronJobRecord :=
  { suspend := false
    schedule := "0 0 * * *"
    lastScheduleTime := some "1000000"
    lastSuccessfulTime := none }

/-- A `Pending` pod owned by a `Job`. -/
def podOwnedByJob : PodRecord :=
  { ownerReferences := [{ kind := some "Job" }], phase := some "Pending" }

/-- A pod record whose `status` lacks the `phase` key. -/
def podNoPhase : PodRecord := { ownerReferences := [], phase := none }

/-- A snapshot with the given start time and no objects. -/
def emptySnapshot (start : String) : Snapshot :=
  { metadataStart := some start
    cronjobs := []
    deployments := []
    statefulsets := []
    jobs := []
    pods := [] }

/-- A snapshot containing only the Job-owned pod `worker`. -/
def jobPodSnapshot (start : String) : Snapshot :=
  { emptySnapshot start with pods := [("worker", podOwnedByJob)] }

/-- A snapshot with one malformed cronjob and one degraded deployment. -/
def badCronSnapshot : Snapshot :=
  { emptySnapshot "2000000" with
    cronjobs := [("stuck", cronBadTs)]
    deployments := [("web", { replicas := some 3, readyReplicas := some 1 })] }

/-- A snapshot whose single cronjob has an unparsable `lastSuccessfulTime`. -/
def badSuccSnapshot : Snapshot :=
  { emptySnapshot "2000000" with cronjobs := [("halfbad", cronBadSuccTs)] }

/-- A snapshot whose single cronjob was last scheduled long ago (time
1000000), so the 7-day scheduling branch is entered under `envA`'s clock. -/
def lateCronSnapshot : Snapshot :=
  { emptySnapshot "2000000" with cronjobs := [("late", cronBothLate)] }

/-- A snapshot whose single deployment record carries no replica counts. -/
def noStatusDeploySnapshot (start : String) : Snapshot :=
  { emptySnapshot start with
    deployments := [("broken", { replicas := none, readyReplicas := none })] }

/-- A snapshot whose single pod record lacks its phase. -/
def noPhasePodSnapshot (start : String) : Snapshot :=
  { emptySnapshot start with pods := [("ghost", podNoPhase)] }

/-- A snapshot with one degraded deployment. -/
def failingDeploySnapshot : Snapshot :=
  { emptySnapshot "2000000" with
    deployments := [("web", { replicas := some 2, readyReplicas := some 1 })] }

/-- The comparison result with no findings, for two snapshots one million
seconds apart. -/
def resNoFindings : ComparisonResult :=
  { cronjobs := []
    deployments := []
    statefulsets := []
    jobs := []
    pods := []
    metadataNow := "2000000"
    metadataDelta := 1000000 }

/-- The result of comparing `failingDeploySnapshot` against itself. -/
def resSelfCompare : ComparisonResult :=
  { cronjobs := []
    deployments := [("web", ["1/2 Ready"])]
    statefulsets := []
    jobs := []
    pods := []
    metadataNow := "2000000"
    metadataDelta := 0 }

/-- Current deployments for the deletion scenario. -/
def curDeps : List (String × ReplicaStatus) :=
  [("web", { replicas := some 2, readyReplicas := some 1 })]

/-- Previous deployments for the deletion scenario: `old` has been deleted. -/
def prevDeps : List (String × ReplicaStatus) :=
  [("web", { replicas := some 2, readyReplicas := some 2 }),
   ("old", { replicas := some 1, readyReplicas := some 1 })]

/-- Expected per-kind output for the deletion scenario. -/
def outDeps : List (String × List String) :=
  [("web", ["1/2 Ready"]), ("old", ["Deleted"])]

/-- Current deployments for the newness scenario: `api` is new and degraded. -/
def curDeps6 : List (String × ReplicaStatus) :=
  [("api", { replicas := some 2, readyReplicas := some 1 }),
   ("web", { replicas := some 1, readyReplicas := some 1 })]

/-- Previous deployments for the newness scenario. -/
def prevDeps6 : List (String × ReplicaStatus) :=
  [("web", { replicas := some 1, readyReplicas := some 1 })]

/-- Expected per-kind output for the newness scenario. -/
def outDeps6 : List (String × List String) :=
  [("api", ["New", "1/2 Ready"])]

/-- Whether an `Except` computation raised (models "the Python call raised an
uncaught exception"). -/
def raises {ε α : Type} : Except ε α → Bool
  | .error _ => true
  | .ok _ => false

section Lemmas

variable {α : Type}

theorem dictGet_eq_none_iff {name : String} {l : List (String × α)} :
    dictGet name l = none ↔ name ∉ l.map Prod.fst := by
  induction l with
  | nil => simp [dictGet]
  | cons p rest ih =>
    obtain ⟨k, v⟩ := p
    by_cases hk : k = name
    · subst hk; simp [dictGet]
    · rw [List.map_cons, List.mem_cons, not_or]
      simp only [dictGet, if_neg hk, ih]
      exact ⟨fun h => ⟨fun he => hk he.symm, h⟩, fun h => h.2⟩

theorem dictGet_isSome_iff {name : String} {l : List (String × α)} :
    (dictGet name l).isSome = true ↔ name ∈ l.map Prod.fst := by
  rw [Option.isSome_iff_ne_none, ne_eq, dictGet_eq_none_iff, not_not]

theorem mem_resource_names_of_current {name : String} {current previous : List (String × α)}
    (h : name ∈ current.map Prod.fst) : name ∈ resource_names current previous := by
  unfold resource_names
  rw [List.mem_dedup, List.mem_append]
  exact Or.inl h

theorem mem_resource_names_of_previous {name : String} {current previous : List (String × α)}
    (h : name ∈ previous.map Prod.fst) : name ∈ resource_names current previous := by
  unfold resource_names
  rw [List.mem_dedup, List.mem_append]
  exact Or.inr h

theorem resource_names_nodup {current previous : List (String × α)} :
    (resource_names current previous).Nodup :=
  List.nodup_dedup _

variable {current previous : List (String × α)}
  {is_failed : α → Except PyError String}
  {ig : Option (List String)} {ownerKinds : α → List String}

theorem loop_entries {names : List String} {out : List (String × List String)}
    (h : compare_resource_loop current previous is_failed ig ownerKinds names = .ok out)
    {n : String} {tags : List String} (hmem : (n, tags) ∈ out) :
    n ∈ names ∧
      compare_resource_step current previous is_failed ig ownerKinds n = .ok (some tags) := by
  induction names generalizing out with
  | nil =>
    unfold compare_resource_loop at h
    cases h
    exact absurd hmem (List.not_mem_nil _)
  | cons m rest ih =>
    unfold compare_resource_loop at h
    cases hstep : compare_resource_step current previous is_failed ig ownerKinds m with
    | error e => rw [hstep] at h; exact Except.noConfusion h
    | ok entry =>
      rw [hstep] at h
      cases hrec : compare_resource_loop current previous is_failed ig ownerKinds rest with
      | error e => rw [hrec] at h; exact Except.noConfusion h
      | ok tail =>
        rw [hrec] at h
        cases entry with
        | some tags' =>
          cases h
          rcases List.mem_cons.mp hmem with heq | htail
          · injection heq with h1 h2
            subst h1; subst h2
            exact ⟨List.mem_cons.mpr (Or.inl rfl), hstep⟩
          · obtain ⟨h1, h2⟩ := ih hrec htail
            exact ⟨List.mem_cons_of_mem _ h1, h2⟩
        | none =>
          cases h
          obtain ⟨h1, h2⟩ := ih hrec hmem
          exact ⟨List.mem_cons_of_mem _ h1, h2⟩

theorem loop_ok_step_ok {names : List String} {out : List (String × List String)}
    (h : compare_resource_loop current previous is_failed ig ownerKinds names = .ok out)
    {name : String} (hmem : name ∈ names) :
    ∃ v, compare_resource_step current previous is_failed ig ownerKinds name = .ok v := by
  induction names generalizing out with
  | nil => exact absurd hmem (List.not_mem_nil _)
  | cons m rest ih =>
    unfold compare_resource_loop at h
    cases hstep : compare_resource_step current previous is_failed ig ownerKinds m with
    | error e => rw [hstep] at h; exact Except.noConfusion h
    | ok entry =>
      rw [hstep] at h
      cases hrec : compare_resource_loop current previous is_failed ig ownerKinds rest with
      | error e => rw [hrec] at h; exact Except.noConfusion h
      | ok tail =>
        rcases List.mem_cons.mp hmem with rfl | htail
        · exact ⟨entry, hstep⟩
        · exact ih hrec htail

theorem loop_lookup_none {names : List String} {out : List (String × List String)}
    (h : compare_resource_loop current previous is_failed ig ownerKinds names = .ok out)
    {name : String}
    (hstep : compare_resource_step current previous is_failed ig ownerKinds name = .ok none) :
    dictGet name out = none := by
  rw [dictGet_eq_none_iff]
  intro hmem
  obtain ⟨tags, hpair⟩ := by
    simpa [List.mem_map, Prod.ext_iff] using hmem
  obtain ⟨-, h2⟩ := loop_entries h hpair
  rw [hstep] at h2
  simp at h2

theorem loop_lookup_some {names : List String} {out : List (String × List String)}
    (hnd : names.Nodup)
    (h : compare_resource_loop current previous is_failed ig ownerKinds names = .ok out)
    {name : String} {tags : List String} (hmem : name ∈ names)
    (hstep : compare_resource_step current previous is_failed ig ownerKinds name =
      .ok (some tags)) :
    dictGet name out = some tags := by
  induction names generalizing out with
  | nil => exact absurd hmem (List.not_mem_nil _)
  | cons m rest ih =>
    unfold compare_resource_loop at h
    cases hstepm : compare_resource_step current previous is_failed ig ownerKinds m with
    | error e => rw [hstepm] at h; exact Except.noConfusion h
    | ok entry =>
      rw [hstepm] at h
      cases hrec : compare_resource_loop current previous is_failed ig ownerKinds rest with
      | error e => rw [hrec] at h; exact Except.noConfusion h
      | ok tail =>
        rw [hrec] at h
        rcases List.mem_cons.mp hmem with rfl | htail
        · rw [hstep] at hstepm
          cases hstepm
          cases h
          simp [dictGet]
        · have hne : m ≠ name := by
            rintro rfl
            exact (List.nodup_cons.mp hnd).1 htail
          have htl := ih (List.nodup_cons.mp hnd).2 hrec htail
          cases entry with
          | some tags' => cases h; simpa [dictGet, hne] using htl
          | none => cases h; exact htl

theorem loop_not_ok {names : List String} {name : String} {e : PyError}
    (hmem : name ∈ names)
    (hstep : compare_resource_step current previous is_failed ig ownerKinds name = .error e) :
    ∀ out, compare_resource_loop current previous is_failed ig ownerKinds names ≠ .ok out := by
  intro out h
  obtain ⟨v, hv⟩ := loop_ok_step_ok h hmem
  rw [hstep] at hv
  exact Except.noConfusion hv

theorem compare_resource_not_ok {α : Type} {current previous : List (String × α)}
    {is_failed : α → Except PyError String}
    {ig : Option (List String)} {ownerKinds : α → List String} {name : String} {e : PyError}
    (hmem : name ∈ resource_names current previous)
    (hstep : compare_resource_step current previous is_failed ig ownerKinds name = .error e) :
    ∀ out, compare_resource current previous is_failed ig ownerKinds ≠ .ok out :=
  loop_not_ok hmem hstep

theorem compare_snapshots_ok_inv {env : Env} {cur prev : Snapshot} {res : ComparisonResult}
    (h : compare_snapshots env cur prev = .ok res) :
    compare_resource cur.cronjobs prev.cronjobs (is_failed_cronjob env) none noOwnerKinds =
        .ok res.cronjobs ∧
      compare_resource cur.deployments prev.deployments
          (fun d => .ok (is_failed_deployment d)) none noOwnerKinds = .ok res.deployments ∧
      compare_resource cur.statefulsets prev.statefulsets
          (fun d => .ok (is_failed_statefulset d)) none noOwnerKinds = .ok res.statefulsets ∧
      compare_resource cur.pods prev.pods is_failed_pod (some ["Job"]) podOwnerKinds =
        .ok res.pods ∧
      res.jobs = [] := by
  unfold compare_snapshots at h
  split at h
  · exact Except.noConfusion h
  split at h
  · exact Except.noConfusion h
  split at h
  · exact Except.noConfusion h
  split at h
  · exact Except.noConfusion h
  next cj hcj =>
    split at h
    · exact Except.noConfusion h
    next dp hdp =>
      split at h
      · exact Except.noConfusion h
      next ss hss =>
        split at h
        · exact Except.noConfusion h
        next pd hpd =>
          cases Except.ok.inj h
          exact ⟨hcj, hdp, hss, hpd, rfl⟩

theorem compare_snapshots_raises_of_cron {env : Env} {cur prev : Snapshot}
    (h : ∀ out, compare_resource cur.cronjobs prev.cronjobs (is_failed_cronjob env)
      none noOwnerKinds ≠ .ok out) :
    raises (compare_snapshots env cur prev) = true := by
  cases hc : compare_snapshots env cur prev with
  | error e => rfl
  | ok res => exact absurd (compare_snapshots_ok_inv hc).1 (h res.cronjobs)

theorem compare_snapshots_raises_of_pods {env : Env} {cur prev : Snapshot}
    (h : ∀ out, compare_resource cur.pods prev.pods is_failed_pod (some ["Job"])
      podOwnerKinds ≠ .ok out) :
    raises (compare_snapshots env cur prev) = true := by
  cases hc : compare_snapshots env cur prev with
  | error e => rfl
  | ok res => exact absurd (compare_snapshots_ok_inv hc).2.2.2.1 (h res.pods)

end Lemmas

section StringFacts

theorem space_mem_append_left {s t : String} (h : ' ' ∈ s.data) : ' ' ∈ (s ++ t).data := by
  rw [String.data_append]
  exact List.mem_append_left _ h

theorem space_mem_append_right {s t : String} (h : ' ' ∈ t.data) : ' ' ∈ (s ++ t).data := by
  rw [String.data_append]
  exact List.mem_append_right _ h

/-- A string containing a space is neither of the two diff tags. -/
theorem ne_new_deleted_of_space {s : String} (h : ' ' ∈ s.data) :
    s ≠ "New" ∧ s ≠ "Deleted" := by
  constructor <;> rintro rfl <;> revert h <;> decide

end StringFacts

section ClassifierFacts

/-- Every non-empty reason returned by the CronJob classifier differs from the
diff tags `"New"` and `"Deleted"` (each reason contains a space). -/
theorem is_failed_cronjob_ok_ne {env : Env} {data : CronJobRecord} {r : String}
    (h : is_failed_cronjob env data = .ok r) (hne : r.isEmpty = false) :
    r ≠ "New" ∧ r ≠ "Deleted" := by
  unfold is_failed_cronjob at h
  split at h
  · cases Except.ok.inj h
    exact absurd hne (by decide)
  dsimp only at h
  split at h
  · split at h
    · cases Except.ok.inj h
      exact ne_new_deleted_of_space (by decide)
    · cases Except.ok.inj h
      exact ne_new_deleted_of_space (by decide)
  split at h
  · cases Except.ok.inj h
    exact ne_new_deleted_of_space (by decide)
  split at h
  · exact Except.noConfusion h
  split at h
  · exact Except.noConfusion h
  split at h
  · split at h
    · exact Except.noConfusion h
    split at h
    · cases Except.ok.inj h
      exact ne_new_deleted_of_space (space_mem_append_left (space_mem_append_left (by decide)))
    · cases Except.ok.inj h
      exact ne_new_deleted_of_space (space_mem_append_left (by decide))
  · split at h
    · cases Except.ok.inj h
      exact ne_new_deleted_of_space (space_mem_append_left (by decide))
    · cases Except.ok.inj h
      exact absurd hne (by decide)

/-- Every non-empty reason returned by the replica classifiers differs from
the diff tags (it ends in `" Ready"`). -/
theorem is_failed_deployment_ne {d : ReplicaStatus} {r : String}
    (h : is_failed_deployment d = r) (hne : r.isEmpty = false) :
    r ≠ "New" ∧ r ≠ "Deleted" := by
  unfold is_failed_deployment at h
  dsimp only at h
  split at h
  · cases h
    exact absurd hne (by decide)
  · cases h
    exact ne_new_deleted_of_space (space_mem_append_right (by decide))

/-- The StatefulSet classifier is (definitionally) the Deployment one. -/
theorem is_failed_statefulset_eq : is_failed_statefulset = is_failed_deployment := rfl

/-- Every reason returned by the Pod classifier differs from the diff tags. -/
theorem is_failed_pod_ok_ne {p : PodRecord} {r : String}
    (h : is_failed_pod p = .ok r) : r ≠ "New" ∧ r ≠ "Deleted" := by
  unfold is_failed_pod at h
  split at h
  · exact Except.noConfusion h
  cases Except.ok.inj h
  split
  next hcond => rcases hcond with rfl | rfl <;> exact ⟨by decide, by decide⟩
  next => exact ⟨by decide, by decide⟩

end ClassifierFacts

theorem compare_resource_step_sup_error {α : Type} {current previous : List (String × α)}
    {is_failed : α → Except PyError String} {ig : Option (List String)}
    {ownerKinds : α → List String} {name : String} {e : PyError}
    (hsup : suppression_check current previous ig ownerKinds name = .error e) :
    compare_resource_step current previous is_failed ig ownerKinds name = .error e := by
  unfold compare_resource_step
  rw [hsup]

theorem compare_resource_step_suppressed {α : Type} {current previous : List (String × α)}
    {is_failed : α → Except PyError String} {ig : Option (List String)}
    {ownerKinds : α → List String} {name : String}
    (hsup : suppression_check current previous ig ownerKinds name = .ok true) :
    compare_resource_step current previous is_failed ig ownerKinds name = .ok none := by
  unfold compare_resource_step
  rw [hsup]

theorem compare_resource_step_cls_error {α : Type} {current previous : List (String × α)}
    {is_failed : α → Except PyError String} {ig : Option (List String)}
    {ownerKinds : α → List String} {name : String} {item : α} {e : PyError}
    (hsup : suppression_check current previous ig ownerKinds name = .ok false)
    (hcur : dictGet name current = some item)
    (hcls : is_failed item = .error e) :
    compare_resource_step current previous is_failed ig ownerKinds name = .error e := by
  unfold compare_resource_step
  rw [hsup]
  dsimp only
  rw [hcur]
  dsimp only
  rw [hcls]

theorem compare_resource_step_present {α : Type} {current previous : List (String × α)}
    {is_failed : α → Except PyError String} {ig : Option (List String)}
    {ownerKinds : α → List String} {name : String} {item : α} {reason : String}
    (hsup : suppression_check current previous ig ownerKinds name = .ok false)
    (hcur : dictGet name current = some item)
    (hcls : is_failed item = .ok reason) :
    compare_resource_step current previous is_failed ig ownerKinds name =
      .ok (if ((if (dictGet name previous).isNone then ["New"] else [])
            ++ (if reason.isEmpty then [] else [reason])).isEmpty = true
          then none
          else some ((if (dictGet name previous).isNone then ["New"] else [])
            ++ (if reason.isEmpty then [] else [reason]))) := by
  unfold compare_resource_step
  rw [hsup]
  dsimp only
  rw [hcur]
  dsimp only
  rw [hcls]
  dsimp only
  rw [apply_ite Except.ok]

theorem compare_resource_step_deleted {α : Type} {current previous : List (String × α)}
    {is_failed : α → Except PyError String} {ig : Option (List String)}
    {ownerKinds : α → List String} {name : String}
    (hsup : suppression_check current previous ig ownerKinds name = .ok false)
    (hcur : dictGet name current = none) :
    compare_resource_step current previous is_failed ig ownerKinds name =
      .ok (some ["Deleted"]) := by
  unfold compare_resource_step
  rw [hsup]
  dsimp only
  rw [hcur]

theorem compare_self_no_new_deleted {α : Type} {l : List (String × α)}
    {is_failed : α → Except PyError String} {ig : Option (List String)}
    {ownerKinds : α → List String} {out : List (String × List String)}
    (hcl : ∀ a r, is_failed a = .ok r → r.isEmpty = false → r ≠ "New" ∧ r ≠ "Deleted")
    (h : compare_resource l l is_failed ig ownerKinds = .ok out) :
    ∀ n tags, (n, tags) ∈ out → "New" ∉ tags ∧ "Deleted" ∉ tags := by
  intro n tags hmem
  obtain ⟨hn, hstep⟩ := loop_entries h hmem
  have hkey : n ∈ l.map Prod.fst := by
    unfold resource_names at hn
    rcases List.mem_append.mp (List.mem_dedup.mp hn) with h' | h' <;> exact h'
  obtain ⟨item, hit⟩ := Option.isSome_iff_exists.mp (dictGet_isSome_iff.mpr hkey)
  cases hsup : suppression_check l l ig ownerKinds n with
  | error e =>
    rw [compare_resource_step_sup_error hsup] at hstep
    exact Except.noConfusion hstep
  | ok b =>
    cases b with
    | true =>
      rw [compare_resource_step_suppressed hsup] at hstep
      exact Option.noConfusion (Except.ok.inj hstep)
    | false =>
      cases hcls : is_failed item with
      | error e =>
        rw [compare_resource_step_cls_error hsup hit hcls] at hstep
        exact Except.noConfusion hstep
      | ok reason =>
        rw [compare_resource_step_present hsup hit hcls, hit] at hstep
        simp only [Option.isNone_some, Bool.false_eq_true, if_false, List.nil_append] at hstep
        cases hre : reason.isEmpty with
        | true =>
          rw [hre] at hstep
          simp at hstep
        | false =>
          rw [hre] at hstep
          simp only [Bool.false_eq_true, if_false, List.isEmpty_cons] at hstep
          cases Option.some.inj (Except.ok.inj hstep)
          obtain ⟨h1, h2⟩ := hcl item reason hcls hre
          simp only [List.mem_singleton]
          exact ⟨fun hq => h1 hq.symm, fun hq => h2 hq.symm⟩

/-- With `ignore_owned_by=None` the suppression step is skipped. -/
theorem suppression_check_none {α : Type} {current previous : List (String × α)}
    {ownerKinds : α → List String} {name : String} :
    suppression_check current previous none ownerKinds name = .ok false := rfl

/-- Behaviour of the CronJob classifier once the guard clauses have passed
and both timestamps parse: the scheduling-liveness check runs first and
returns early; only otherwise does the run-success check run. -/
theorem is_failed_cronjob_parsed {env : Env} {data : CronJobRecord} {ss ts : String}
    {sched succ : Int}
    (hsusp : data.suspend = false)
    (hs : data.lastScheduleTime = some ss) (hse : ss.isEmpty = false)
    (ht : data.lastSuccessfulTime = some ts) (hte : ts.isEmpty = false)
    (hps : env.isoparse ss = some sched) (hpt : env.isoparse ts = some succ) :
    is_failed_cronjob env data =
      if env.now - sched > 7 * 86400 then
        match env.cronPrev data.schedule env.now with
        | none => .error (.parseError data.schedule)
        | some expected =>
          if expected ≤ sched then
            .ok ("Has not been scheduled in " ++ env.naturaldelta (env.now - sched)
              ++ " (but this might be expected)")
          else
            .ok ("Has not been scheduled in " ++ env.naturaldelta (env.now - sched))
      else if sched - succ > 86400 then
        .ok ("Has not run successfully in " ++ env.naturaldelta (env.now - succ))
      else
        .ok "" := by
  simp only [is_failed_cronjob, hsusp, hs, ht, strFalsy, hse, hte, parseOrRaise, hps, hpt,
    Bool.false_eq_true, if_false]

/-- Claim C1 (counterexample).  A non-suspended job with both timestamps
present, where both `now - last_scheduled_at` exceeds the 7-day grace period
and `last_scheduled_at - last_successful_at` exceeds the 1-day grace period:
the classifier returns only the scheduling alarm and not the run-success
reason, because the scheduling branch returns early. -/
theorem C1_counterexample :
    envA.now - 1000000 > 7 * 86400 ∧
    (1000000 : Int) - 0 > 86400 ∧
    is_failed_cronjob envA cronBothLate = .ok "Has not been scheduled in D" ∧
    is_failed_cronjob envA cronBothLate ≠ .ok "Has not run successfully in D" := by
  refine ⟨by decide, by decide, by decide, by decide⟩

/-- Claim C1 (amended).  The run-success liveness check is not independent of
the scheduling check: it fires only when `now - last_scheduled_at` does not
exceed the 7-day grace period.  In that case, if
`last_scheduled_at - last_successful_at` exceeds the 1-day grace period, the
classifier returns `"Has not run successfully in <elapsed since last
success>"`. -/
theorem C1_amended (env : Env) (data : CronJobRecord) (ss ts : String) (sched succ : Int)
    (hsusp : data.suspend = false)
    (hs : data.lastScheduleTime = some ss) (hse : ss.isEmpty = false)
    (ht : data.lastSuccessfulTime = some ts) (hte : ts.isEmpty = false)
    (hps : env.isoparse ss = some sched) (hpt : env.isoparse ts = some succ)
    (hgrace : ¬(env.now - sched > 7 * 86400))
    (hlate : sched - succ > 86400) :
    is_failed_cronjob env data =
      .ok ("Has not run successfully in " ++ env.naturaldelta (env.now - succ)) := by
  rw [is_failed_cronjob_parsed hsusp hs hse ht hte hps hpt, if_neg hgrace, if_pos hlate]

/-- Claim C1 (witness for the amended theorem). -/
theorem C1_amended_witness :
    is_failed_cronjob envRun cronBothLate = .ok "Has not run successfully in D" :=
  C1_amended envRun cronBothLate "1000000" "0" 1000000 0 rfl rfl (by decide) rfl (by decide)
    (by decide) (by decide) (by decide) (by decide)

/-- Claim C3 (counterexample).  With `last_scheduled_at = now - 7d - 1s` and
the cron expression's most recent predicted fire strictly before `now` lying
before `last_scheduled_at` (500000 < 1000000), the classifier returns the
annotated `"(but this might be expected)"` variant, not the hard alarm the
claim states. -/
theorem C3_counterexample :
    envSoftPrior.now - 1000000 = 7 * 86400 + 1 ∧
    envSoftPrior.cronPrev cronBoundary.schedule envSoftPrior.now = some 500000 ∧
    (500000 : Int) < 1000000 ∧
    is_failed_cronjob envSoftPrior cronBoundary =
      .ok "Has not been scheduled in D (but this might be expected)" ∧
    is_failed_cronjob envSoftPrior cronBoundary ≠ .ok "Has not been scheduled in D" := by
  refine ⟨by decide, by decide, by decide, by decide, by decide⟩

/-- Claim C3 (amended).  At `last_scheduled_at = now - 7d - 1s`: when the
predicted prior fire is strictly after `last_scheduled_at` the hard alarm
`"Has not been scheduled in <elapsed>"` is returned; when it is at or before
`last_scheduled_at` the annotated `"(but this might be expected)"` variant is
returned instead.  At `last_scheduled_at = now - 7d + 1s` no scheduling alarm
is produced: the result is decided solely by the run-success check. -/
theorem C3_amended (env : Env) (data : CronJobRecord) (ss ts : String) (sched succ : Int)
    (hsusp : data.suspend = false)
    (hs : data.lastScheduleTime = some ss) (hse : ss.isEmpty = false)
    (ht : data.lastSuccessfulTime = some ts) (hte : ts.isEmpty = false)
    (hps : env.isoparse ss = some sched) (hpt : env.isoparse ts = some succ) :
    (sched = env.now - (7 * 86400 + 1) →
      ∀ expected, env.cronPrev data.schedule env.now = some expected →
        (sched < expected →
          is_failed_cronjob env data =
            .ok ("Has not been scheduled in " ++ env.naturaldelta (env.now - sched))) ∧
        (expected ≤ sched →
          is_failed_cronjob env data =
            .ok ("Has not been scheduled in " ++ env.naturaldelta (env.now - sched)
              ++ " (but this might be expected)"))) ∧
    (sched = env.now - (7 * 86400 - 1) →
      is_failed_cronjob env data =
        .ok (if sched - succ > 86400 then
            "Has not run successfully in " ++ env.naturaldelta (env.now - succ)
          else "")) := by
  have hchar := is_failed_cronjob_parsed hsusp hs hse ht hte hps hpt
  constructor
  · intro hb expected hexp
    constructor
    · intro hlt
      rw [hchar, if_pos (by omega), hexp]
      dsimp only
      rw [if_neg (by omega)]
    · intro hle
      rw [hchar, if_pos (by omega), hexp]
      dsimp only
      rw [if_pos hle]
  · intro hb
    rw [hchar, if_neg (by omega), apply_ite Except.ok]

/-- Claim C3 (witness for the amended theorem): the hard alarm, the annotated
variant, and the inside-the-grace-period case, each at concrete inputs. -/
theorem C3_amended_witness :
    is_failed_cronjob envHard cronBoundary = .ok "Has not been scheduled in D" ∧
    is_failed_cronjob envSoftPrior cronBoundary =
      .ok "Has not been scheduled in D (but this might be expected)" ∧
    is_failed_cronjob envJustInside cronBoundary = .ok "" := by
  refine ⟨?_, ?_, ?_⟩
  · exact ((C3_amended envHard cronBoundary "1000000" "999999" 1000000 999999 rfl rfl
      (by decide) rfl (by decide) (by decide) (by decide)).1 (by decide) 1604800
      (by decide)).1 (by decide)
  · exact ((C3_amended envSoftPrior cronBoundary "1000000" "999999" 1000000 999999 rfl rfl
      (by decide) rfl (by decide) (by decide) (by decide)).1 (by decide) 500000
      (by decide)).2 (by decide)
  · exact (C3_amended envJustInside cronBoundary "1000000" "999999" 1000000 999999 rfl rfl
      (by decide) rfl (by decide) (by decide) (by decide)).2 (by decide)

/-- Claim C4.  The first three outcomes of the CronJob classifier, in
precedence order: a suspended record is healthy regardless of its other
fields; otherwise an absent `lastScheduleTime` (absent meaning the code's
falsiness test: null or empty) yields the two `"Never scheduled"` variants
according to whether `lastSuccessfulTime` is present; otherwise an absent
`lastSuccessfulTime` yields `"Never successfully ran"`. -/
theorem C4 (env : Env) (data : CronJobRecord) :
    (data.suspend = true → is_failed_cronjob env data = .ok "") ∧
    (data.suspend = false → strFalsy data.lastScheduleTime = true →
      is_failed_cronjob env data =
        .ok (if strFalsy data.lastSuccessfulTime then "Never scheduled"
          else "Never scheduled (but has run successfully)")) ∧
    (data.suspend = false → strFalsy data.lastScheduleTime = false →
      strFalsy data.lastSuccessfulTime = true →
      is_failed_cronjob env data = .ok "Never successfully ran") := by
  refine ⟨fun h => ?_, fun h1 h2 => ?_, fun h1 h2 h3 => ?_⟩
  · simp only [is_failed_cronjob, h, if_true]
  · cases hb : strFalsy data.lastSuccessfulTime <;>
      simp only [is_failed_cronjob, h1, h2, hb, Bool.false_eq_true, if_false, if_true,
        Bool.not_false, Bool.not_true]
  · simp only [is_failed_cronjob, h1, h2, h3, Bool.false_eq_true, if_false, if_true]

/-- Claim C4 (witness): the three outcomes at concrete records. -/
theorem C4_witness :
    is_failed_cronjob envA cronSuspended = .ok "" ∧
    is_failed_cronjob envA cronNeverScheduled =
      .ok "Never scheduled (but has run successfully)" ∧
    is_failed_cronjob envA cronNeverRan = .ok "Never successfully ran" :=
  ⟨(C4 envA cronSuspended).1 rfl,
   (C4 envA cronNeverScheduled).2.1 rfl rfl,
   (C4 envA cronNeverRan).2.2 rfl (by decide) rfl⟩


/-- Claim C2 (counterexample).  A snapshot containing one cronjob whose
`lastScheduleTime` does not parse, together with a degraded deployment that
would otherwise be reported: the comparison as a whole aborts with the parse
error, so neither object is classified — no failure isolation. -/
theorem C2_counterexample :
    compare_snapshots envA badCronSnapshot (emptySnapshot "1000000") =
      .error (.parseError "not-a-time") := by
  decide

/-- Claim C2 (amended).  Malformed schedule records are fatal when the
classifier reaches their parse, not isolated: for a non-suspended record with
both timestamps present, an unparsable `lastScheduleTime`, an unparsable
`lastSuccessfulTime`, or — only once `now - last_scheduled_at` exceeds the
7-day grace period — an unparsable cron expression raises an uncaught
exception that aborts the whole of `compare_snapshots` (the object is not
classified as unhealthy, and no other objects or kinds are processed).
Within the 7-day grace window the cron expression is never evaluated, so an
unparsable cron expression alone raises nothing and the classifier completes
normally. -/
theorem C2_amended (env : Env) (cur prev : Snapshot) (name : String) (r : CronJobRecord)
    (ss ts : String)
    (hc : dictGet name cur.cronjobs = some r)
    (hsusp : r.suspend = false)
    (hs : r.lastScheduleTime = some ss) (hse : ss.isEmpty = false)
    (ht : r.lastSuccessfulTime = some ts) (hte : ts.isEmpty = false) :
    (env.isoparse ss = none → raises (compare_snapshots env cur prev) = true) ∧
    (∀ sched, env.isoparse ss = some sched → env.isoparse ts = none →
      raises (compare_snapshots env cur prev) = true) ∧
    (∀ sched succ, env.isoparse ss = some sched → env.isoparse ts = some succ →
      env.now - sched > 7 * 86400 → env.cronPrev r.schedule env.now = none →
      raises (compare_snapshots env cur prev) = true) ∧
    (∀ sched succ, env.isoparse ss = some sched → env.isoparse ts = some succ →
      ¬(env.now - sched > 7 * 86400) →
      is_failed_cronjob env r =
        .ok (if sched - succ > 86400 then
            "Has not run successfully in " ++ env.naturaldelta (env.now - succ)
          else "")) := by
  have key : ∀ e : PyError, is_failed_cronjob env r = .error e →
      raises (compare_snapshots env cur prev) = true := by
    intro e hcls
    apply compare_snapshots_raises_of_cron
    have hmem : name ∈ resource_names cur.cronjobs prev.cronjobs :=
      mem_resource_names_of_current (dictGet_isSome_iff.mp (by rw [hc]; rfl))
    exact compare_resource_not_ok hmem
      (compare_resource_step_cls_error suppression_check_none hc hcls)
  refine ⟨fun hbad => ?_, fun sched hps hbad => ?_, fun sched succ hps hpt hgt hcron => ?_,
    fun sched succ hps hpt hle => ?_⟩
  · refine key (.parseError ss) ?_
    simp only [is_failed_cronjob, hsusp, hs, ht, strFalsy, hse, hte, parseOrRaise, hbad,
      Bool.false_eq_true, if_false]
  · refine key (.parseError ts) ?_
    simp only [is_failed_cronjob, hsusp, hs, ht, strFalsy, hse, hte, parseOrRaise, hps, hbad,
      Bool.false_eq_true, if_false]
  · refine key (.parseError r.schedule) ?_
    rw [is_failed_cronjob_parsed hsusp hs hse ht hte hps hpt, if_pos hgt, hcron]
  · rw [is_failed_cronjob_parsed hsusp hs hse ht hte hps hpt, if_neg hle,
      apply_ite Except.ok]

/-- Claim C2 (witness for the amended theorem): an unparsable
`lastScheduleTime`, an unparsable `lastSuccessfulTime`, and an unparsable
cron expression past the grace period each abort the comparison, while an
unparsable cron expression inside the grace period leaves the classifier
returning normally. -/
theorem C2_amended_witness :
    raises (compare_snapshots envA badCronSnapshot (emptySnapshot "1000000")) = true ∧
    raises (compare_snapshots envA badSuccSnapshot (emptySnapshot "1000000")) = true ∧
    raises (compare_snapshots envBadCron lateCronSnapshot (emptySnapshot "1000000")) = true ∧
    is_failed_cronjob envBadCronGrace cronBothLate = .ok "Has not run successfully in D" :=
  ⟨(C2_amended envA badCronSnapshot (emptySnapshot "1000000") "stuck" cronBadTs
      "not-a-time" "5" (by decide) rfl rfl (by decide) rfl (by decide)).1 (by decide),
   (C2_amended envA badSuccSnapshot (emptySnapshot "1000000") "halfbad" cronBadSuccTs
      "1000000" "also-bad" (by decide) rfl rfl (by decide) rfl (by decide)).2.1 1000000
      (by decide) (by decide),
   (C2_amended envBadCron lateCronSnapshot (emptySnapshot "1000000") "late" cronBothLate
      "1000000" "0" (by decide) rfl rfl (by decide) rfl (by decide)).2.2.1 1000000 0
      (by decide) (by decide) (by decide) rfl,
   (C2_amended envBadCronGrace lateCronSnapshot (emptySnapshot "1000000") "late" cronBothLate
      "1000000" "0" (by decide) rfl rfl (by decide) rfl (by decide)).2.2.2 1000000 0
      (by decide) (by decide) (by decide)⟩

/-- Claim C5 (counterexample).  The pod `worker` is present only in the
previous snapshot, but because its record's owner kinds intersect the
suppressed set `["Job"]`, the comparison omits it entirely: it is not tagged
`"Deleted"`. -/
theorem C5_counterexample :
    dictGet "worker" (emptySnapshot "2000000").pods = none ∧
    dictGet "worker" (jobPodSnapshot "1000000").pods = some podOwnedByJob ∧
    compare_snapshots envA (emptySnapshot "2000000") (jobPodSnapshot "1000000") =
      .ok resNoFindings ∧
    dictGet "worker" resNoFindings.pods = none := by
  refine ⟨by decide, by decide, by decide, by decide⟩

/-- Claim C5 (amended).  For every resource kind, an object name present in
the previous map but absent from the current map whose name is not skipped by
the ownership-suppression step is tagged exactly `["Deleted"]` in the result:
no failure classifier is applied to it, so its finding never contains a
failure reason.  (Names skipped by the suppression step are omitted from the
result entirely.) -/
theorem C5_amended {α : Type} (current previous : List (String × α))
    (is_failed : α → Except PyError String) (ig : Option (List String))
    (ownerKinds : α → List String) (name : String) (item : α)
    (out : List (String × List String))
    (hdel : dictGet name current = none)
    (hprev : dictGet name previous = some item)
    (hsup : suppression_check current previous ig ownerKinds name = .ok false)
    (hok : compare_resource current previous is_failed ig ownerKinds = .ok out) :
    dictGet name out = some ["Deleted"] := by
  have hmem : name ∈ resource_names current previous :=
    mem_resource_names_of_previous (dictGet_isSome_iff.mp (by rw [hprev]; rfl))
  exact loop_lookup_some resource_names_nodup hok hmem
    (compare_resource_step_deleted hsup hdel)

/-- Claim C5 (witness for the amended theorem). -/
theorem C5_amended_witness : dictGet "old" outDeps = some ["Deleted"] :=
  C5_amended curDeps prevDeps (fun d => .ok (is_failed_deployment d)) none noOwnerKinds
    "old" { replicas := some 1, readyReplicas := some 1 } outDeps
    (by decide) (by decide) rfl (by decide)

/-- Claim C6 (counterexample).  The pod `worker` is present only in the
current snapshot with phase `Pending`, but because its owner kinds intersect
the suppressed set `["Job"]` the comparison omits it entirely: it is not
tagged `"New"`. -/
theorem C6_counterexample :
    dictGet "worker" (jobPodSnapshot "2000000").pods = some podOwnedByJob ∧
    dictGet "worker" (emptySnapshot "1000000").pods = none ∧
    podOwnedByJob.phase = some "Pending" ∧
    compare_snapshots envA (jobPodSnapshot "2000000") (emptySnapshot "1000000") =
      .ok resNoFindings ∧
    dictGet "worker" resNoFindings.pods = none := by
  refine ⟨by decide, by decide, by decide, by decide, by decide⟩

/-- Claim C6 (amended).  An object present only in the current map whose name
is not skipped by the ownership-suppression step is tagged `"New"`, and
independently receives the classifier's failure reason when that reason is
non-empty, so both can co-occur in one finding; and any name whose
accumulated descriptor list is empty is omitted from the result entirely. -/
theorem C6_amended {α : Type} (current previous : List (String × α))
    (is_failed : α → Except PyError String) (ig : Option (List String))
    (ownerKinds : α → List String) (name : String)
    (out : List (String × List String))
    (hok : compare_resource current previous is_failed ig ownerKinds = .ok out) :
    (∀ item reason, dictGet name current = some item → dictGet name previous = none →
      suppression_check current previous ig ownerKinds name = .ok false →
      is_failed item = .ok reason →
      dictGet name out = some (["New"] ++ if reason.isEmpty then [] else [reason])) ∧
    (∀ item, dictGet name current = some item → (dictGet name previous).isSome = true →
      is_failed item = .ok "" → dictGet name out = none) := by
  constructor
  · intro item reason hcur hprev hsup hcls
    have hmem : name ∈ resource_names current previous :=
      mem_resource_names_of_current (dictGet_isSome_iff.mp (by rw [hcur]; rfl))
    have hstep := compare_resource_step_present hsup hcur hcls
    rw [hprev] at hstep
    simp only [Option.isNone_none, if_true, List.cons_append, List.nil_append,
      List.isEmpty_cons, Bool.false_eq_true, if_false] at hstep
    have := loop_lookup_some resource_names_nodup hok hmem hstep
    simpa [List.cons_append, List.nil_append] using this
  · intro item hcur hprevS hcls
    have hmem : name ∈ resource_names current previous :=
      mem_resource_names_of_current (dictGet_isSome_iff.mp (by rw [hcur]; rfl))
    cases hsupr : suppression_check current previous ig ownerKinds name with
    | error e =>
      exact absurd hok
        (compare_resource_not_ok hmem (compare_resource_step_sup_error hsupr) out)
    | ok b =>
      cases b with
      | true => exact loop_lookup_none hok (compare_resource_step_suppressed hsupr)
      | false =>
        obtain ⟨item2, hprev2⟩ := Option.isSome_iff_exists.mp hprevS
        have hstep := compare_resource_step_present hsupr hcur hcls
        rw [hprev2] at hstep
        simp only [Option.isNone_some, Bool.false_eq_true, if_false, if_true,
          String.isEmpty, List.nil_append, List.isEmpty_nil] at hstep
        exact loop_lookup_none hok hstep

/-- Claim C6 (witness for the amended theorem). -/
theorem C6_amended_witness :
    dictGet "api" outDeps6 = some ["New", "1/2 Ready"] ∧ dictGet "web" outDeps6 = none :=
  ⟨(C6_amended curDeps6 prevDeps6 (fun d => .ok (is_failed_deployment d)) none noOwnerKinds
      "api" outDeps6 (by decide)).1
      { replicas := some 2, readyReplicas := some 1 } "1/2 Ready"
      (by decide) (by decide) rfl (by decide),
   (C6_amended curDeps6 prevDeps6 (fun d => .ok (is_failed_deployment d)) none noOwnerKinds
      "web" outDeps6 (by decide)).2
      { replicas := some 1, readyReplicas := some 1 }
      (by decide) (by decide) (by decide)⟩


/-- Claim C7 (counterexample).  A deployment record lacking both replica
counts is not failed loudly in its slot: the classifier substitutes 0 for the
missing fields, reports the object healthy, and the object is silently
omitted from the result. -/
theorem C7_counterexample :
    (noStatusDeploySnapshot "2000000").deployments =
      [("broken", { replicas := none, readyReplicas := none })] ∧
    is_failed_deployment { replicas := none, readyReplicas := none } = "" ∧
    compare_snapshots envA (noStatusDeploySnapshot "2000000")
      (noStatusDeploySnapshot "1000000") = .ok resNoFindings ∧
    dictGet "broken" resNoFindings.deployments = none := by
  refine ⟨by decide, by decide, by decide, by decide⟩

/-- Claim C7 (amended).  A record missing a field required by its kind's
classifier is not failed loudly in that object's slot: the replica-based
classifiers substitute 0 for a missing desired or ready count (so a record
missing both is reported healthy and silently omitted), while a pod record
missing its phase raises a `KeyError` that aborts the entire comparison
rather than failing only in that object's slot. -/
theorem C7_amended :
    (∀ d : ReplicaStatus, d.replicas = none → d.readyReplicas = none →
      is_failed_deployment d = "" ∧ is_failed_statefulset d = "") ∧
    (∀ (env : Env) (cur prev : Snapshot) (name : String) (p : PodRecord),
      dictGet name cur.pods = some p → p.phase = none →
      suppression_check cur.pods prev.pods (some ["Job"]) podOwnerKinds name = .ok false →
      raises (compare_snapshots env cur prev) = true) := by
  constructor
  · intro d h1 h2
    constructor <;> simp [is_failed_deployment, is_failed_statefulset, h1, h2]
  · intro env cur prev name p hcur hphase hsup
    apply compare_snapshots_raises_of_pods
    have hcls : is_failed_pod p = .error (.keyError "phase") := by
      simp only [is_failed_pod, hphase]
    have hmem : name ∈ resource_names cur.pods prev.pods :=
      mem_resource_names_of_current (dictGet_isSome_iff.mp (by rw [hcur]; rfl))
    exact compare_resource_not_ok hmem (compare_resource_step_cls_error hsup hcur hcls)

/-- Claim C7 (witness for the amended theorem). -/
theorem C7_amended_witness :
    (is_failed_deployment { replicas := none, readyReplicas := none } = "" ∧
      is_failed_statefulset { replicas := none, readyReplicas := none } = "") ∧
    raises (compare_snapshots envA (noPhasePodSnapshot "2000000")
      (emptySnapshot "1000000")) = true :=
  ⟨C7_amended.1 { replicas := none, readyReplicas := none } rfl rfl,
   C7_amended.2 envA (noPhasePodSnapshot "2000000") (emptySnapshot "1000000") "ghost"
     podNoPhase (by decide) rfl (by decide)⟩

/-- Claim C8.  Comparing any snapshot against itself yields no `"New"` and no
`"Deleted"` tags in any resource kind of the result. -/
theorem C8 (env : Env) (S : Snapshot) (res : ComparisonResult)
    (h : compare_snapshots env S S = .ok res) :
    (∀ n tags, (n, tags) ∈ res.cronjobs → "New" ∉ tags ∧ "Deleted" ∉ tags) ∧
    (∀ n tags, (n, tags) ∈ res.deployments → "New" ∉ tags ∧ "Deleted" ∉ tags) ∧
    (∀ n tags, (n, tags) ∈ res.statefulsets → "New" ∉ tags ∧ "Deleted" ∉ tags) ∧
    (∀ n tags, (n, tags) ∈ res.jobs → "New" ∉ tags ∧ "Deleted" ∉ tags) ∧
    (∀ n tags, (n, tags) ∈ res.pods → "New" ∉ tags ∧ "Deleted" ∉ tags) := by
  obtain ⟨hcj, hdp, hss, hpd, hjobs⟩ := compare_snapshots_ok_inv h
  refine ⟨compare_self_no_new_deleted (fun a r hr hne => is_failed_cronjob_ok_ne hr hne) hcj,
    compare_self_no_new_deleted
      (fun a r hr hne => is_failed_deployment_ne (Except.ok.inj hr) hne) hdp,
    compare_self_no_new_deleted (fun a r hr hne => ?_) hss,
    ?_,
    compare_self_no_new_deleted (fun a r hr _ => is_failed_pod_ok_ne hr) hpd⟩
  · have h2 := Except.ok.inj hr
    rw [is_failed_statefulset_eq] at h2
    exact is_failed_deployment_ne h2 hne
  · rw [hjobs]
    intro n tags hmem
    exact absurd hmem (List.not_mem_nil _)

/-- Claim C8 (witness): self-comparison of a snapshot with a degraded
deployment flags the deployment without `"New"` or `"Deleted"`. -/
theorem C8_witness : "New" ∉ ["1/2 Ready"] ∧ "Deleted" ∉ ["1/2 Ready"] :=
  (C8 envA failingDeploySnapshot resSelfCompare (by decide)).2.1 "web" ["1/2 Ready"]
    (by decide)

/-- Claim C9.  A pod whose examined record's owner kinds intersect the
suppressed-owner set `["Job"]` produces no finding, regardless of its phase
or of any tags it would otherwise accumulate; and the suppression test is
true exactly when the record's owner kinds intersect the suppressed set. -/
theorem C9 (env : Env) (cur prev : Snapshot) (res : ComparisonResult) (name : String)
    (h : compare_snapshots env cur prev = .ok res) :
    (suppression_check cur.pods prev.pods (some ["Job"]) podOwnerKinds name = .ok true →
      dictGet name res.pods = none) ∧
    (∀ (p : PodRecord) (s : List String),
      intersects s (podOwnerKinds p) = true ↔
        ∃ k, k ∈ s ∧ k ∈ get_owner_kinds p.ownerReferences) := by
  constructor
  · intro hsup
    obtain ⟨-, -, -, hpd, -⟩ := compare_snapshots_ok_inv h
    exact loop_lookup_none hpd (compare_resource_step_suppressed hsup)
  · intro p s
    simp [intersects, podOwnerKinds, List.any_eq_true]

/-- Claim C9 (witness): the Job-owned `Pending` pod `worker` produces no
finding. -/
theorem C9_witness : dictGet "worker" resNoFindings.pods = none :=
  (C9 envA (jobPodSnapshot "2000000") (emptySnapshot "1000000") resNoFindings "worker"
    (by decide)).1 (by decide)

/-- Claim C10.  The `jobs` mapping of every successful comparison result is
empty: one-off jobs are never diffed or classified, so no job produces a
finding. -/
theorem C10 (env : Env) (cur prev : Snapshot) (res : ComparisonResult)
    (h : compare_snapshots env cur prev = .ok res) : res.jobs = [] :=
  (compare_snapshots_ok_inv h).2.2.2.2

/-- Claim C10 (witness). -/
theorem C10_witness : resNoFindings.jobs = [] :=
  C10 envA (emptySnapshot "2000000") (emptySnapshot "1000000") resNoFindings (by decide)

end KTools
